import Mathlib

/-
Verification of the xai-debate-generator generation pipeline: a shallow
embedding in Lean 4 of the persona catalog (persona-registry.ts), the
resilient API client (grok-client.ts), the voice enhancer
(voice-enhancer.ts) and the debate orchestrator (debate-generator.ts),
together with theorems about validation, retry policy, cost estimation,
model selection, title extraction and voice-enhancement fallback.

Content strings are modelled as lists of characters (`Str`); network
interactions are modelled by passing the upstream outcome of each call
explicitly (an `Except` value, or an oracle from the request payload to an
outcome), since the behaviour under verification is how the code reacts to
those outcomes, not the outcomes themselves.
-/

/-- Content strings (JS strings) as lists of characters. -/
abbrev Str := List Char

/-- JS `String.prototype.trim()`: whitespace removed from both ends. -/
def jsTrim (s : Str) : Str :=
  ((s.dropWhile Char.isWhitespace).reverse.dropWhile Char.isWhitespace).reverse

/-- JS `String.prototype.toLowerCase()` over the character-list model. -/
def lowerStr (s : Str) : Str := s.map Char.toLower

/-- `enum PoliticalLeaning` of src/src/index.ts (types/personas):
LIBERAL = "liberal", CONSERVATIVE = "conservative". -/
inductive PoliticalLeaning where
  | LIBERAL
  | CONSERVATIVE
deriving DecidableEq

/-- The string value of a `PoliticalLeaning` member (TS string enum). -/
def leaningText : PoliticalLeaning → String
  | .LIBERAL => "liberal"
  | .CONSERVATIVE => "conservative"

/-- `enum ExpertiseLevel`: GRASSROOTS = "grassroots", EXPERT = "expert". -/
inductive ExpertiseLevel where
  | GRASSROOTS
  | EXPERT
deriving DecidableEq

/-- `interface PersonaProfile` of types/personas. The two free-text prompt
fields (`signaturePhrases`, `systemPrompt`) only ever flow into the text of
upstream requests, which this embedding abstracts as oracles, so they are
omitted here; every field read by an embedded operation is present. -/
structure PersonaProfile where
  personaId : String
  displayName : String
  description : String
  politicalLeaning : PoliticalLeaning
  expertiseLevel : ExpertiseLevel
  characterName : String
  background : String
  writingStyle : String
  keyInfluences : List String
  preferredSources : List String
  socialMediaHandle : String
deriving DecidableEq

/-- The profile stored under `PersonaType.LIBERAL_GRASSROOTS`
(persona-registry.ts, initializePersonas). -/
def alexRivera : PersonaProfile where
  personaId := "liberal_grassroots"
  displayName := "Alex Rivera - Grassroots Organizer"
  description := "Progressive activist and community organizer with street-level experience"
  politicalLeaning := .LIBERAL
  expertiseLevel := .GRASSROOTS
  characterName := "Alex Rivera"
  background := "32-year-old Latina from Oakland, former BLM organizer, CAP policy analyst"
  writingStyle := "Passionate, personal stories, organizing calls, cultural references"
  keyInfluences := ["Alexandria Ocasio-Cortez", "Bernie Sanders", "Ibram X. Kendi", "James Baldwin"]
  preferredSources := ["The Guardian", "ProPublica", "Center for American Progress", "@AOC", "@BernieSanders"]
  socialMediaHandle := "@AlexRiveraWrites"

/-- The profile stored under `PersonaType.LIBERAL_EXPERT`. -/
def mayaChen : PersonaProfile where
  personaId := "liberal_expert"
  displayName := "Dr. Maya Chen - Policy Expert"
  description := "Elite progressive commentator and policy scholar with media influence"
  politicalLeaning := .LIBERAL
  expertiseLevel := .EXPERT
  characterName := "Dr. Maya Chen"
  background := "45-year-old policy professor at Georgetown, MSNBC contributor, former Obama admin"
  writingStyle := "Sophisticated analysis, academic rigor, media-savvy commentary"
  keyInfluences := ["Elizabeth Warren", "Paul Krugman", "Rachel Maddow", "Robert Reich"]
  preferredSources := ["New York Times", "Washington Post", "Brookings Institution", "@PaulKrugman", "@RachelMaddow"]
  socialMediaHandle := "@DrMayaChenDC"

/-- The profile stored under `PersonaType.CONSERVATIVE_PATRIOT`. -/
def jordanHale : PersonaProfile where
  personaId := "conservative_patriot"
  displayName := "Jordan Hale - Patriot Entrepreneur"
  description := "Small business owner and veteran with America First values"
  politicalLeaning := .CONSERVATIVE
  expertiseLevel := .GRASSROOTS
  characterName := "Jordan Hale"
  background := "38-year-old ex-Marine from Texas, construction company owner, podcast host"
  writingStyle := "No-nonsense, common sense, patriotic appeals, business examples"
  keyInfluences := ["Donald Trump", "Tucker Carlson", "Dan Bongino", "Ronald Reagan"]
  preferredSources := ["Fox News", "Wall Street Journal", "Heritage Foundation", "@realDonaldTrump", "@TuckerCarlson"]
  socialMediaHandle := "@JordanHaleUSA"

/-- The profile stored under `PersonaType.CONSERVATIVE_EXPERT`. -/
def michaelSterling : PersonaProfile where
  personaId := "conservative_expert"
  displayName := "Michael Sterling - Elite Pundit"
  description := "Top-tier conservative intellectual and media personality"
  politicalLeaning := .CONSERVATIVE
  expertiseLevel := .EXPERT
  characterName := "Michael Sterling"
  background := "52-year-old former federal judge, National Review editor, Fox News host"
  writingStyle := "Intellectual authority, constitutional analysis, elite media presence"
  keyInfluences := ["William F. Buckley", "Antonin Scalia", "Thomas Sowell", "Ben Shapiro"]
  preferredSources := ["National Review", "American Enterprise Institute", "Hoover Institution", "@BenShapiro", "@Heritage"]
  socialMediaHandle := "@MichaelSterlingJD"

/-- `getAllPersonas()`: the registry map's values in insertion order
(initializePersonas inserts the four profiles in this order). -/
def allPersonas : List PersonaProfile :=
  [alexRivera, mayaChen, jordanHale, michaelSterling]

/-- `getPersona(type)`: map lookup by key; `PersonaType` is a string enum, so
the runtime key is the persona-id string. -/
def getPersona (id : String) : Option PersonaProfile :=
  allPersonas.find? (fun p => p.personaId == id)

/-- `validatePersonaPair(persona1, persona2)` of persona-registry.ts:
both ids must resolve and the two leanings must differ. -/
def validatePersonaPair (persona1 persona2 : String) : Bool :=
  match getPersona persona1, getPersona persona2 with
  | some p1, some p2 => p1.politicalLeaning != p2.politicalLeaning
  | _, _ => false

/-- `interface PersonaCombination` of types/personas. -/
structure PersonaCombination where
  id : String
  displayName : String
  persona1 : PersonaProfile
  persona2 : PersonaProfile
  politicalMatchup : String
deriving DecidableEq

/-- The combination record `getValidCombinations` pushes for a differing
pair, with the derived id, display label and matchup descriptor. -/
def mkCombination (p1 p2 : PersonaProfile) : PersonaCombination where
  id := p1.personaId ++ "_vs_" ++ p2.personaId
  displayName := p1.displayName ++ " vs " ++ p2.displayName
  persona1 := p1
  persona2 := p2
  politicalMatchup := leaningText p1.politicalLeaning ++ " vs " ++ leaningText p2.politicalLeaning

/-- The inner loop of `getValidCombinations`: combinations of `p1` with every
later profile of a differing leaning, in list order. -/
def pairCombinations (p1 : PersonaProfile) (rest : List PersonaProfile) : List PersonaCombination :=
  (rest.filter (fun p2 => p1.politicalLeaning != p2.politicalLeaning)).map (mkCombination p1)

/-- The double loop of `getValidCombinations` (indices i < j) over an
arbitrary profile list. -/
def getValidCombinationsOf : List PersonaProfile → List PersonaCombination
  | [] => []
  | p :: rest => pairCombinations p rest ++ getValidCombinationsOf rest

/-- `getValidCombinations()` of persona-registry.ts over the shipped catalog. -/
def getValidCombinations : List PersonaCombination :=
  getValidCombinationsOf allPersonas

/-- The number of catalog profiles with a given leaning. -/
def countLeaning (l : PoliticalLeaning) (ps : List PersonaProfile) : Nat :=
  ps.countP (fun p => p.politicalLeaning == l)

/-- Token usage of a parsed upstream response (grok-client.ts `GrokResponse.usage`). -/
structure GrokUsage where
  promptTokens : Nat
  completionTokens : Nat
  totalTokens : Nat
deriving DecidableEq

/-- One search source of a parsed upstream response. -/
structure GrokSource where
  url : String
  title : String
  snippet : String
deriving DecidableEq

/-- `GrokResponse` of grok-client.ts: the parsed result of one upstream call. -/
structure GrokResponse where
  content : Str
  usage : Option GrokUsage
  model : String
  sources : Option (List GrokSource)
  searchCost : Option ℚ
deriving DecidableEq

/-- `GrokError` of grok-client.ts: a failure thrown by `makeRequest` or
`parseResponse` (HTTP failure with a status code, timeout with code TIMEOUT,
or a malformed response). -/
structure GrokError where
  error : String
  code : Option String
  statusCode : Option Nat
deriving DecidableEq

namespace GrokClient

/-- `this.maxRetries = config.maxRetries || 3`: JS `||` takes the default on
`undefined` and on `0`. -/
def resolveMaxRetries (configured : Option Nat) : Nat :=
  match configured with
  | none => 3
  | some n => if n == 0 then 3 else n

/-- Whether an attempt's outcome is a rate-limit failure, the one retried
case of the retry loop (`(error as any).statusCode === 429`). -/
def is429 (r : Except GrokError GrokResponse) : Bool :=
  match r with
  | .error e => e.statusCode == some 429
  | .ok _ => false

/-- Result of `generate`: what it returns or throws, and how many request
attempts (`makeRequest` calls) it made. -/
structure GenOutcome where
  result : Except GrokError GrokResponse
  attemptsMade : Nat

/-- The thrown value when the loop body never ran (`throw lastError` with
`lastError` still `undefined`; unreachable for the resolved `maxRetries`,
which is never 0). -/
def undefinedError : GrokError where
  error := "undefined"
  code := none
  statusCode := none

/-- The retry loop of `generate` (grok-client.ts): `remaining` loop
iterations left, `attempt` the current 0-based attempt index, `lastError`
the last caught error. `outcomes attempt` is what the upstream interaction
(`makeRequest` + `parseResponse`) of that attempt yields. A success returns;
a 429 failure is recorded and retried after a backoff sleep (a pure delay,
no observable effect here); any other failure is rethrown immediately;
running out of iterations throws the last error. -/
def generateAux (outcomes : Nat → Except GrokError GrokResponse) :
    Nat → Nat → Option GrokError → GenOutcome
  | 0, attempt, lastError =>
    { result := .error (lastError.getD undefinedError), attemptsMade := attempt }
  | remaining + 1, attempt, _ =>
    match outcomes attempt with
    | .ok r => { result := .ok r, attemptsMade := attempt + 1 }
    | .error e =>
      if e.statusCode == some 429 then
        generateAux outcomes remaining (attempt + 1) (some e)
      else
        { result := .error e, attemptsMade := attempt + 1 }

/-- `generate` with its retry loop `for (attempt = 0; attempt < maxRetries; attempt++)`. -/
def generate (maxRetries : Nat) (outcomes : Nat → Except GrokError GrokResponse) : GenOutcome :=
  generateAux outcomes maxRetries 0 none

/-- `estimateCost(usage?, searchSources = 0)` of grok-client.ts. -/
def estimateCost (usage : Option GrokUsage) (searchSources : Nat) : ℚ :=
  match usage with
  | none => 0
  | some usage =>
    let inputCostPerToken : ℚ := 0.20 / 1000000
    let outputCostPerToken : ℚ := 0.50 / 1000000
    let searchCostPerSource : ℚ := 0.025
    let inputCost := usage.promptTokens * inputCostPerToken
    let outputCost := usage.completionTokens * outputCostPerToken
    let searchCost := searchSources * searchCostPerSource
    inputCost + outputCost + searchCost

/-- The fixed keyword list of `selectModel`. -/
def reasoningKeywords : List Str :=
  ["analyze", "complex", "systematic", "constitutional",
   "policy", "economic", "historical", "legal", "impact",
   "comprehensive", "evaluate", "compare", "explain"].map String.toList

/-- The combined text `selectModel` inspects: the template literal
join of topic, one space and `context || ''`, lower-cased. -/
def combinedTextOf (topic : Str) (context : Option Str) : Str :=
  lowerStr (topic ++ [' '] ++ context.getD [])

/-- `selectModel(topic, context?)` of grok-client.ts. -/
def selectModel (topic : Str) (context : Option Str) : String :=
  let combinedText := combinedTextOf topic context
  let needsReasoning :=
    reasoningKeywords.any (fun keyword => decide (keyword <:+: combinedText))
      || decide (combinedText.length > 100)
  if needsReasoning then ("grok-4-fast-reasoning") else ("grok-4-fast")

end GrokClient

/-- `VoiceEnhancer.enhanceContent(content, persona, biasLevel)` of
voice-enhancer.ts. The upstream rewrite call is abstracted by `oracle`,
mapping the request's content sample (the persona- and bias-specific prompt
wrapper adds no other content-dependent data) to the upstream outcome: the
returned text, or a failure. The function itself never fails: its `catch`
returns the original content, and so does the branch where the returned
text misses the success condition. -/
def enhanceContent (content : Str) (oracle : Str → Except GrokError Str) : Str :=
  let sampleLength := min 600 content.length
  let contentSample := content.take sampleLength
  match oracle contentSample with
  | .error _ => content
  | .ok enhancedExcerpt =>
    if !enhancedExcerpt.isEmpty && decide ((jsTrim enhancedExcerpt).length > 50) then
      enhancedExcerpt ++ content.drop sampleLength
    else
      content

/-- The regex replace `trimmed.replace(/^#\s*/, '')` of `extractTitle`: one
leading hash character and the whitespace right after it are removed; any
other string is unchanged. -/
def stripHeading (s : Str) : Str :=
  match s with
  | '#' :: rest => rest.dropWhile Char.isWhitespace
  | _ => s

/-- The `for (const line of lines)` loop of `extractTitle`: the first line
whose trim is non-empty is returned trimmed and heading-stripped, else the
literal fallback. -/
def findTitle : List Str → Str
  | [] => "Untitled".toList
  | line :: rest =>
    let trimmed := jsTrim line
    if trimmed.isEmpty then findTitle rest else stripHeading trimmed

/-- `extractTitle(content)` of debate-generator.ts: split on newlines, take
the first non-blank line. -/
def extractTitle (content : Str) : Str :=
  findTitle (content.splitOn '\n')

/-- `getPersonaTemperature(persona, biasLevel)` of debate-generator.ts. -/
def getPersonaTemperature (persona : PersonaProfile) (biasLevel : ℚ) : ℚ :=
  let baseTemp : ℚ := if persona.expertiseLevel = ExpertiseLevel.EXPERT then 0.65 else 0.7
  baseTemp + biasLevel * 0.25

/-- The trimmed persona projection embedded in a `PersonaResponse`. -/
structure PersonaIdentity where
  id : String
  characterName : String
  displayName : String
  expertiseLevel : ExpertiseLevel
  socialMediaHandle : String
deriving DecidableEq

/-- `interface PersonaResponse` of types/personas. -/
structure PersonaResponse where
  perspective : PoliticalLeaning
  persona : PersonaIdentity
  topic : Str
  context : Option Str
  content : Str
  title : Str
  modelUsed : String
  tokenUsage : Option GrokUsage
  sourcesUsed : Option (List String)
  timestamp : String
  twitterIntegrated : Bool
  biasLevel : ℚ
  voiceEnhanced : Bool
deriving DecidableEq

/-- `DebateGenerator.generatePersonaResponse` of debate-generator.ts, given
the outcome `grokResponse` of the (successful) primary generation call and
the voice enhancer's upstream oracle. The prompt built by `constructPrompt`
and the temperature only shape the upstream request, which the outcome
parameters abstract. `enhanceContent` catches every upstream failure
internally and returns normally, so the `try` body always completes: the
orchestrator's `catch` (which would leave `voiceEnhanced = false`) is
unreachable, and `voiceEnhanced` is set to `true` whenever the enhancement
step runs at all. -/
def generatePersonaResponse (persona : PersonaProfile) (topic : Str)
    (context : Option Str) (useTwitterSearch : Bool) (biasLevel : ℚ)
    (nowIso : String) (grokResponse : GrokResponse)
    (enhanceOracle : Str → Except GrokError Str) : PersonaResponse :=
  let model := GrokClient.selectModel topic context
  let content0 := grokResponse.content
  let runEnhancer := decide (content0.length > 500) && decide (biasLevel > (0.3 : ℚ))
  let content := if runEnhancer then enhanceContent content0 enhanceOracle else content0
  let voiceEnhanced := runEnhancer
  { perspective := persona.politicalLeaning
    persona :=
      { id := persona.personaId
        characterName := persona.characterName
        displayName := persona.displayName
        expertiseLevel := persona.expertiseLevel
        socialMediaHandle := persona.socialMediaHandle }
    topic := topic
    context := context
    content := content
    title := extractTitle content
    modelUsed := model
    tokenUsage := grokResponse.usage
    sourcesUsed := grokResponse.sources.map (fun l => l.map GrokSource.url)
    timestamp := nowIso
    twitterIntegrated := false
    biasLevel := biasLevel
    voiceEnhanced := voiceEnhanced }

/-- The bias-level pair of `DebateConfig`. -/
structure BiasLevels where
  persona1 : ℚ
  persona2 : ℚ
deriving DecidableEq

/-- `interface DebateConfig` of types/personas. -/
structure DebateConfig where
  topic : Str
  persona1Id : String
  persona2Id : String
  context : Option Str
  useTwitterSearch : Option Bool
  biasLevels : Option BiasLevels

/-- One persona's entry in `DebateResult.personas`. -/
structure DebatePersonaEntry where
  id : String
  info : PersonaProfile
  content : PersonaResponse

/-- `DebateResult.personas`: always both entries, by construction. -/
structure DebatePersonas where
  persona1 : DebatePersonaEntry
  persona2 : DebatePersonaEntry

/-- `DebateResult.generationMetadata.modelsUsed`. -/
structure ModelsUsed where
  persona1 : String
  persona2 : String

/-- `DebateResult.generationMetadata`. -/
structure GenerationMetadata where
  generationTimeSeconds : ℚ
  twitterSearchEnabled : Bool
  biasLevels : BiasLevels
  modelsUsed : ModelsUsed

/-- `DebateResult.costAnalysis.costBreakdown` (the per-persona token usage). -/
structure CostBreakdown where
  persona1 : Option GrokUsage
  persona2 : Option GrokUsage

/-- `DebateResult.costAnalysis`. -/
structure CostAnalysis where
  totalEstimatedCost : ℚ
  costBreakdown : CostBreakdown

/-- `interface DebateResult` of types/personas. -/
structure DebateResult where
  debateId : String
  topic : Str
  context : Option Str
  personas : DebatePersonas
  generationMetadata : GenerationMetadata
  costAnalysis : CostAnalysis
  timestamp : String

/-- The failures `generateDebate` can throw: the two validation errors
thrown before any upstream request, or the error of a failed primary
generation re-thrown from `Promise.all`. -/
inductive DebateError where
  | invalidPersonaSelection
  | invalidPersonaIds
  | generationFailed (e : GrokError)
deriving DecidableEq

/-- The per-call environment of `generateDebate`: the outcome of each
persona's primary generation call, each voice enhancer's upstream oracle,
and the wall clock readings. -/
structure DebateEnv where
  primary1 : Except GrokError GrokResponse
  primary2 : Except GrokError GrokResponse
  enhanceOracle1 : Str → Except GrokError Str
  enhanceOracle2 : Str → Except GrokError Str
  nowMs : Nat
  generationTimeSeconds : ℚ
  nowIso : String

/-- `calculateTotalCost(response1, response2)` of debate-generator.ts
(`sourcesUsed?.length || 0` is the source count, 0 when absent). -/
def calculateTotalCost (response1 response2 : PersonaResponse) : ℚ :=
  GrokClient.estimateCost response1.tokenUsage (response1.sourcesUsed.getD []).length
    + GrokClient.estimateCost response2.tokenUsage (response2.sourcesUsed.getD []).length

/-- `DebateGenerator.generateDebate(config)` of debate-generator.ts. The
second component counts the primary upstream generation requests issued:
0 when validation rejects the pair (the function throws before `Promise.all`
runs), 2 otherwise (`Promise.all` starts both pipelines). When either
primary outcome is a failure, `Promise.all` rejects and the whole call
fails; the model surfaces `primary1`'s failure first, standing for
whichever rejection settles first. Enhancement calls happen only inside a
pipeline whose primary call succeeded. -/
def generateDebate (config : DebateConfig) (env : DebateEnv) :
    Except DebateError DebateResult × Nat :=
  if !(validatePersonaPair config.persona1Id config.persona2Id) then
    (.error .invalidPersonaSelection, 0)
  else
    match getPersona config.persona1Id, getPersona config.persona2Id with
    | some persona1, some persona2 =>
      let biasLevels := config.biasLevels.getD { persona1 := 0.5, persona2 := 0.5 }
      let useSearch := config.useTwitterSearch.getD true
      match env.primary1, env.primary2 with
      | .ok g1, .ok g2 =>
        let response1 := generatePersonaResponse persona1 config.topic config.context
          useSearch biasLevels.persona1 env.nowIso g1 env.enhanceOracle1
        let response2 := generatePersonaResponse persona2 config.topic config.context
          useSearch biasLevels.persona2 env.nowIso g2 env.enhanceOracle2
        let totalCost := calculateTotalCost response1 response2
        (.ok
          { debateId := toString env.nowMs ++ "_" ++ config.persona1Id ++ "_" ++ config.persona2Id
            topic := config.topic
            context := config.context
            personas :=
              { persona1 := { id := config.persona1Id, info := persona1, content := response1 }
                persona2 := { id := config.persona2Id, info := persona2, content := response2 } }
            generationMetadata :=
              { generationTimeSeconds := env.generationTimeSeconds
                twitterSearchEnabled := useSearch
                biasLevels := biasLevels
                modelsUsed := { persona1 := response1.modelUsed, persona2 := response2.modelUsed } }
            costAnalysis :=
              { totalEstimatedCost := totalCost
                costBreakdown := { persona1 := response1.tokenUsage, persona2 := response2.tokenUsage } }
            timestamp := env.nowIso }, 2)
      | .error e, _ => (.error (.generationFailed e), 2)
      | .ok _, .error e => (.error (.generationFailed e), 2)
    | _, _ => (.error .invalidPersonaIds, 0)

/-- The claim-side reading of `extractTitle`: the first line that is
non-blank after trimming, trimmed and heading-stripped; the literal
placeholder when no such line exists. -/
def extractTitleSpec (content : Str) : Str :=
  match (content.splitOn '\n').find? (fun line => !(jsTrim line).isEmpty) with
  | some line => stripHeading (jsTrim line)
  | none => "Untitled".toList

/-- A rate-limited upstream failure (HTTP 429). -/
def rateLimitError : GrokError where
  error := "API request failed: Too Many Requests"
  code := none
  statusCode := some 429

/-- An upstream timeout failure as `makeRequest` throws it. -/
def timeoutError : GrokError where
  error := "Request timeout"
  code := some ("TIMEOUT")
  statusCode := none

/-- A successful upstream outcome for concrete scenarios. -/
def sampleOk : GrokResponse where
  content := "ok".toList
  usage := some { promptTokens := 10, completionTokens := 20, totalTokens := 30 }
  model := "grok-4-fast"
  sources := none
  searchCost := none

/-- Upstream outcome sequence of the boundary scenario for the retry loop:
429 on the first three nominal attempts, success on the fourth. -/
def retryScenarioOutcomes : Nat → Except GrokError GrokResponse :=
  fun attempt => if attempt < 3 then .error rateLimitError else .ok sampleOk

/-- Concrete generated content of length 501 (just over the enhancement
threshold) for the voice-enhancement failure scenario. -/
def enhanceScenarioContent : Str := List.replicate 501 'x'

/-- A voice-enhancement upstream oracle that always fails (timeout). -/
def failingEnhanceOracle : Str → Except GrokError Str :=
  fun _ => .error timeoutError

/-- The primary generation outcome of the voice-enhancement failure
scenario. -/
def enhanceScenarioGrok : GrokResponse where
  content := enhanceScenarioContent
  usage := some { promptTokens := 100, completionTokens := 200, totalTokens := 300 }
  model := "grok-4-fast"
  sources := none
  searchCost := none

/-- The `PersonaResponse` the orchestrator builds in the scenario where the
content is long enough (501 characters), the bias level (0.5) is over the
enhancement threshold, and the voice-enhancement upstream call fails. -/
def enhanceScenarioResponse : PersonaResponse :=
  generatePersonaResponse alexRivera ("tax".toList) none true 0.5 ("2025-10-11T00:00:00Z")
    enhanceScenarioGrok failingEnhanceOracle

/-- A same-leaning request: both personas liberal. -/
def sameLeaningConfig : DebateConfig where
  topic := "tax".toList
  persona1Id := "liberal_grassroots"
  persona2Id := "liberal_expert"
  context := none
  useTwitterSearch := none
  biasLevels := none

/-- A concrete environment whose upstream calls would all succeed, for the
validation-failure scenario. -/
def sampleEnv : DebateEnv where
  primary1 := .ok sampleOk
  primary2 := .ok sampleOk
  enhanceOracle1 := fun _ => .ok []
  enhanceOracle2 := fun _ => .ok []
  nowMs := 1760140800000
  generationTimeSeconds := 12
  nowIso := "2025-10-11T00:00:00Z"

/-- Concrete 700-character content for the enhancement splice scenario. -/
def spliceScenarioContent : Str := List.replicate 700 'a'

/-- A voice-enhancement oracle returning a 60-character rewrite. -/
def spliceScenarioOracle : Str → Except GrokError Str :=
  fun _ => .ok (List.replicate 60 'b')

/-- Helper: the two leanings are exhaustive, so refusing one is accepting
the other. -/
theorem countP_ne_leaning (l : PoliticalLeaning) (rest : List PersonaProfile) :
    rest.countP (fun p2 => l != p2.politicalLeaning)
      = match l with
        | .LIBERAL => countLeaning .CONSERVATIVE rest
        | .CONSERVATIVE => countLeaning .LIBERAL rest := by
  cases l with
  | LIBERAL =>
    unfold countLeaning
    apply List.countP_congr
    intro q _
    cases q.politicalLeaning <;> rfl
  | CONSERVATIVE =>
    unfold countLeaning
    apply List.countP_congr
    intro q _
    cases q.politicalLeaning <;> rfl

/-- Helper: the cross-pair count of the double loop of
`getValidCombinations`, for any profile list. -/
theorem length_getValidCombinationsOf (ps : List PersonaProfile) :
    (getValidCombinationsOf ps).length
      = countLeaning .LIBERAL ps * countLeaning .CONSERVATIVE ps := by
  induction ps with
  | nil => rfl
  | cons p rest ih =>
    have hlen : (getValidCombinationsOf (p :: rest)).length
        = rest.countP (fun p2 => p.politicalLeaning != p2.politicalLeaning)
          + (getValidCombinationsOf rest).length := by
      simp [getValidCombinationsOf, pairCombinations, List.countP_eq_length_filter]
    rw [hlen, ih, countP_ne_leaning]
    unfold countLeaning
    cases h : p.politicalLeaning <;>
      simp [List.countP_cons, h, Nat.succ_mul, Nat.mul_succ] <;> ring

/-- Claim C7: `getValidCombinations()` returns exactly one entry per
unordered pair of catalog profiles with differing leanings — no entry with
equal leanings, no reversed duplicates — so a catalog split m/n across the
two leanings yields m times n entries; the shipped catalog (2 liberal, 2
conservative) yields exactly 4. -/
theorem getValidCombinations_spec :
    (∀ ps : List PersonaProfile,
        (getValidCombinationsOf ps).length
          = countLeaning .LIBERAL ps * countLeaning .CONSERVATIVE ps)
    ∧ countLeaning .LIBERAL allPersonas = 2
    ∧ countLeaning .CONSERVATIVE allPersonas = 2
    ∧ getValidCombinations.length = 4
    ∧ (∀ c ∈ getValidCombinations,
        c.persona1.politicalLeaning ≠ c.persona2.politicalLeaning)
    ∧ (∀ p ∈ allPersonas, ∀ q ∈ allPersonas,
        p.politicalLeaning ≠ q.politicalLeaning →
          getValidCombinations.countP (fun c =>
            (c.persona1.personaId == p.personaId && c.persona2.personaId == q.personaId)
              || (c.persona1.personaId == q.personaId && c.persona2.personaId == p.personaId)) = 1) := by
  refine ⟨length_getValidCombinationsOf, by decide, by decide, by decide, by decide, by decide⟩

/-- Witness for C7 at concrete inputs: the shipped catalog has 4 valid
combinations, and the unordered pair (Alex Rivera, Jordan Hale) appears in
exactly one entry. -/
theorem getValidCombinations_spec_witness :
    getValidCombinations.length = 4
    ∧ getValidCombinations.countP (fun c =>
        (c.persona1.personaId == "liberal_grassroots" && c.persona2.personaId == "conservative_patriot")
          || (c.persona1.personaId == "conservative_patriot" && c.persona2.personaId == "liberal_grassroots")) = 1 :=
  ⟨getValidCombinations_spec.2.2.2.1,
    getValidCombinations_spec.2.2.2.2.2 alexRivera (by decide) jordanHale (by decide) (by decide)⟩

/-- Claim C2: `validatePersonaPair(a, b)` is true exactly when both ids
resolve to catalog profiles whose leanings differ, and the relation is
symmetric in its two arguments. -/
theorem validatePersonaPair_spec (a b : String) :
    (validatePersonaPair a b = true ↔
      ∃ p1 p2, getPersona a = some p1 ∧ getPersona b = some p2
        ∧ p1.politicalLeaning ≠ p2.politicalLeaning)
    ∧ validatePersonaPair a b = validatePersonaPair b a := by
  constructor
  · cases h1 : getPersona a with
    | none => simp [validatePersonaPair, h1]
    | some p1 =>
      cases h2 : getPersona b with
      | none => simp [validatePersonaPair, h1, h2]
      | some p2 => simp [validatePersonaPair, h1, h2, bne_iff_ne]
  · cases h1 : getPersona a with
    | none => cases h2 : getPersona b <;> simp [validatePersonaPair, h1, h2]
    | some p1 =>
      cases h2 : getPersona b with
      | none => simp [validatePersonaPair, h1, h2]
      | some p2 =>
        simp only [validatePersonaPair, h1, h2]
        cases p1.politicalLeaning <;> cases p2.politicalLeaning <;> rfl

/-- Witness for C2 at concrete ids: a liberal vs conservative pair
validates, in both argument orders, and an unknown id fails. -/
theorem validatePersonaPair_spec_witness :
    validatePersonaPair ("liberal_grassroots") ("conservative_expert")
        = validatePersonaPair ("conservative_expert") ("liberal_grassroots")
    ∧ validatePersonaPair ("liberal_grassroots") ("conservative_expert") = true
    ∧ validatePersonaPair ("liberal_grassroots") ("liberal_expert") = false
    ∧ validatePersonaPair ("nobody") ("conservative_expert") = false :=
  ⟨(validatePersonaPair_spec ("liberal_grassroots") ("conservative_expert")).2,
    by decide, by decide, by decide⟩

/-- Helper: the retry loop makes at most `remaining` further attempts. -/
theorem generateAux_attemptsMade_le (outcomes : Nat → Except GrokError GrokResponse) :
    ∀ (rem att : Nat) (le : Option GrokError),
      (GrokClient.generateAux outcomes rem att le).attemptsMade ≤ att + rem := by
  intro rem
  induction rem with
  | zero => intro att le; simp [GrokClient.generateAux]
  | succ r ih =>
    intro att le
    unfold GrokClient.generateAux
    cases h : outcomes att with
    | ok v => simp
    | error e =>
      cases h429 : e.statusCode == some 429 with
      | true =>
        simp only [h429, if_true]
        have := ih (att + 1) (some e)
        omega
      | false => simp [h429]

/-- Helper: after `k` rate-limited attempts, a successful attempt `k`
returns its response with `k + 1` attempts made. -/
theorem generateAux_ok (outcomes : Nat → Except GrokError GrokResponse) :
    ∀ (k rem att : Nat) (le : Option GrokError) (r : GrokResponse),
      k < rem → (∀ j, j < k → GrokClient.is429 (outcomes (att + j)) = true) →
      outcomes (att + k) = .ok r →
      GrokClient.generateAux outcomes rem att le = ⟨.ok r, att + k + 1⟩ := by
  intro k
  induction k with
  | zero =>
    intro rem att le r hk _ hok
    cases rem with
    | zero => omega
    | succ rem =>
      unfold GrokClient.generateAux
      rw [show att + 0 = att from rfl] at hok
      rw [hok]
  | succ k ih =>
    intro rem att le r hk h429 hok
    cases rem with
    | zero => omega
    | succ rem =>
      have h0 : GrokClient.is429 (outcomes att) = true := by
        have h := h429 0 (Nat.succ_pos k)
        rw [show att + 0 = att from rfl] at h
        exact h
      cases he : outcomes att with
      | ok v => rw [he] at h0; simp [GrokClient.is429] at h0
      | error e =>
        have h429e : (e.statusCode == some 429) = true := by
          rw [he] at h0; simpa [GrokClient.is429] using h0
        unfold GrokClient.generateAux
        rw [he]
        simp only [h429e, if_true]
        have happ := ih rem (att + 1) (some e) r (by omega)
          (fun j hj => by
            have h := h429 (j + 1) (by omega)
            rw [show att + (j + 1) = att + 1 + j from by omega] at h
            exact h)
          (by rw [show att + 1 + k = att + (k + 1) from by omega]; exact hok)
        rw [happ]
        congr 1
        omega

/-- Helper: after `k` rate-limited attempts, a non-rate-limited failure at
attempt `k` is rethrown immediately with `k + 1` attempts made. -/
theorem generateAux_fatal (outcomes : Nat → Except GrokError GrokResponse) :
    ∀ (k rem att : Nat) (le : Option GrokError) (e : GrokError),
      k < rem → (∀ j, j < k → GrokClient.is429 (outcomes (att + j)) = true) →
      outcomes (att + k) = .error e → (e.statusCode == some 429) = false →
      GrokClient.generateAux outcomes rem att le = ⟨.error e, att + k + 1⟩ := by
  intro k
  induction k with
  | zero =>
    intro rem att le e hk _ herr hne
    cases rem with
    | zero => omega
    | succ rem =>
      unfold GrokClient.generateAux
      rw [show att + 0 = att from rfl] at herr
      rw [herr]
      simp [hne]
  | succ k ih =>
    intro rem att le e hk h429 herr hne
    cases rem with
    | zero => omega
    | succ rem =>
      have h0 : GrokClient.is429 (outcomes att) = true := by
        have h := h429 0 (Nat.succ_pos k)
        rw [show att + 0 = att from rfl] at h
        exact h
      cases he : outcomes att with
      | ok v => rw [he] at h0; simp [GrokClient.is429] at h0
      | error e0 =>
        have h429e : (e0.statusCode == some 429) = true := by
          rw [he] at h0; simpa [GrokClient.is429] using h0
        unfold GrokClient.generateAux
        rw [he]
        simp only [h429e, if_true]
        have happ := ih rem (att + 1) (some e0) e (by omega)
          (fun j hj => by
            have h := h429 (j + 1) (by omega)
            rw [show att + (j + 1) = att + 1 + j from by omega] at h
            exact h)
          (by rw [show att + 1 + k = att + (k + 1) from by omega]; exact herr) hne
        rw [happ]
        congr 1
        omega

/-- Helper: when every attempt the budget allows is rate-limited, the loop
exhausts the budget and throws the last observed error. -/
theorem generateAux_exhaust (outcomes : Nat → Except GrokError GrokResponse) :
    ∀ (rem att : Nat) (le : Option GrokError),
      1 ≤ rem → (∀ j, j < rem → GrokClient.is429 (outcomes (att + j)) = true) →
      ∃ e, outcomes (att + rem - 1) = .error e ∧
        GrokClient.generateAux outcomes rem att le = ⟨.error e, att + rem⟩ := by
  intro rem
  induction rem with
  | zero => intro att le h1; omega
  | succ r ih =>
    intro att le _ h429
    have h0 : GrokClient.is429 (outcomes att) = true := by
      have h := h429 0 (Nat.succ_pos r)
      rw [show att + 0 = att from rfl] at h
      exact h
    cases he : outcomes att with
    | ok v => rw [he] at h0; simp [GrokClient.is429] at h0
    | error e0 =>
      have h429e : (e0.statusCode == some 429) = true := by
        rw [he] at h0; simpa [GrokClient.is429] using h0
      cases r with
      | zero =>
        refine ⟨e0, by rw [show att + 1 - 1 = att from by omega]; exact he, ?_⟩
        unfold GrokClient.generateAux
        rw [he]
        simp [h429e, GrokClient.generateAux]
      | succ r' =>
        obtain ⟨e, hout, heq⟩ := ih (att + 1) (some e0) (by omega)
          (fun j hj => by
            have h := h429 (j + 1) (by omega)
            rw [show att + (j + 1) = att + 1 + j from by omega] at h
            exact h)
        refine ⟨e, by rw [show att + (r' + 1 + 1) - 1 = att + 1 + (r' + 1) - 1 from by omega]; exact hout, ?_⟩
        unfold GrokClient.generateAux
        rw [he]
        simp only [h429e, if_true]
        rw [heq]
        congr 1
        omega

/-- Claim C4: for every sequence of upstream outcomes, `generate` makes at
most `maxRetries` attempts; only a 429 failure leads to a further attempt
(a success, or any other failure, is surfaced right after the attempt that
observed it); when all `maxRetries` attempts fail with 429 the last
observed error is surfaced after exactly `maxRetries` attempts, so with
`maxRetries = 3` a fourth attempt is never made; and the default retry
budget is 3. -/
theorem grokGenerate_retry_policy (maxRetries : Nat)
    (outcomes : Nat → Except GrokError GrokResponse) :
    (GrokClient.generate maxRetries outcomes).attemptsMade ≤ maxRetries
    ∧ (∀ k r, k < maxRetries → (∀ j, j < k → GrokClient.is429 (outcomes j) = true) →
        outcomes k = .ok r →
        GrokClient.generate maxRetries outcomes = ⟨.ok r, k + 1⟩)
    ∧ (∀ k e, k < maxRetries → (∀ j, j < k → GrokClient.is429 (outcomes j) = true) →
        outcomes k = .error e → e.statusCode ≠ some 429 →
        GrokClient.generate maxRetries outcomes = ⟨.error e, k + 1⟩)
    ∧ (1 ≤ maxRetries → (∀ j, j < maxRetries → GrokClient.is429 (outcomes j) = true) →
        ∃ e, outcomes (maxRetries - 1) = .error e ∧
          GrokClient.generate maxRetries outcomes = ⟨.error e, maxRetries⟩)
    ∧ GrokClient.resolveMaxRetries none = 3 := by
  refine ⟨?_, ?_, ?_, ?_, rfl⟩
  · have := generateAux_attemptsMade_le outcomes maxRetries 0 none
    simpa [GrokClient.generate] using this
  · intro k r hk h429 hok
    have := generateAux_ok outcomes k maxRetries 0 none r hk
      (fun j hj => by simpa using h429 j hj) (by simpa using hok)
    simpa [GrokClient.generate] using this
  · intro k e hk h429 herr hne
    have hne' : (e.statusCode == some 429) = false := by
      simpa [beq_eq_false_iff_ne] using hne
    have := generateAux_fatal outcomes k maxRetries 0 none e hk
      (fun j hj => by simpa using h429 j hj) (by simpa using herr) hne'
    simpa [GrokClient.generate] using this
  · intro h1 h429
    have := generateAux_exhaust outcomes maxRetries 0 none h1
      (fun j hj => by simpa using h429 j hj)
    simpa [GrokClient.generate] using this

/-- Witness for C4 at the boundary scenario: three consecutive 429 failures
with `maxRetries = 3` exhaust the budget — the call fails with the last
rate-limit error after exactly 3 attempts, and the fourth (nominally
successful) attempt is never made. -/
theorem grokGenerate_retry_policy_witness :
    GrokClient.generate 3 retryScenarioOutcomes
      = { result := .error rateLimitError, attemptsMade := 3 } := by
  obtain ⟨e, he, hgen⟩ :=
    (grokGenerate_retry_policy 3 retryScenarioOutcomes).2.2.2.1 (by norm_num) (by decide)
  have h2 : retryScenarioOutcomes (3 - 1) = .error rateLimitError := rfl
  rw [h2] at he
  injection he with h3
  rw [← h3] at hgen
  exact hgen

/-- Claim C5: `estimateCost(usage, s)` with usage present equals the exact
pricing formula, is linear in the source count with slope 0.025, is zero on
all-zero usage with no sources, and is monotone non-decreasing in
promptTokens, completionTokens and the source count. -/
theorem estimateCost_spec :
    (∀ (u : GrokUsage) (s : Nat),
        GrokClient.estimateCost (some u) s
          = u.promptTokens * (0.20 / 1000000 : ℚ)
            + u.completionTokens * (0.50 / 1000000 : ℚ) + s * (0.025 : ℚ))
    ∧ (∀ (u : GrokUsage) (s : Nat),
        GrokClient.estimateCost (some u) s
          = GrokClient.estimateCost (some u) 0 + s * (0.025 : ℚ))
    ∧ GrokClient.estimateCost (some { promptTokens := 0, completionTokens := 0, totalTokens := 0 }) 0 = 0
    ∧ (∀ (p p' c c' t t' s s' : Nat), p ≤ p' → c ≤ c' → s ≤ s' →
        GrokClient.estimateCost (some { promptTokens := p, completionTokens := c, totalTokens := t }) s
          ≤ GrokClient.estimateCost (some { promptTokens := p', completionTokens := c', totalTokens := t' }) s') := by
  refine ⟨fun u s => rfl, ?_, by norm_num [GrokClient.estimateCost], ?_⟩
  · intro u s
    simp only [GrokClient.estimateCost]
    push_cast
    ring
  · intro p p' c c' t t' s s' hp hc hs
    simp only [GrokClient.estimateCost]
    have hp2 : (p : ℚ) ≤ (p' : ℚ) := by exact_mod_cast hp
    have hc2 : (c : ℚ) ≤ (c' : ℚ) := by exact_mod_cast hc
    have hs2 : (s : ℚ) ≤ (s' : ℚ) := by exact_mod_cast hs
    have h1 : (p : ℚ) * (0.20 / 1000000) ≤ (p' : ℚ) * (0.20 / 1000000) :=
      mul_le_mul_of_nonneg_right hp2 (by norm_num)
    have h2 : (c : ℚ) * (0.50 / 1000000) ≤ (c' : ℚ) * (0.50 / 1000000) :=
      mul_le_mul_of_nonneg_right hc2 (by norm_num)
    have h3 : (s : ℚ) * 0.025 ≤ (s' : ℚ) * 0.025 :=
      mul_le_mul_of_nonneg_right hs2 (by norm_num)
    linarith

/-- Witness for C5 at concrete numbers: the pricing formula at one million
prompt tokens, two million completion tokens and two sources, and
monotonicity at a concrete pair of inputs. -/
theorem estimateCost_spec_witness :
    GrokClient.estimateCost
        (some { promptTokens := 1000000, completionTokens := 2000000, totalTokens := 3000000 }) 2
      = 1.25
    ∧ GrokClient.estimateCost (some { promptTokens := 1, completionTokens := 1, totalTokens := 1 }) 0
        ≤ GrokClient.estimateCost (some { promptTokens := 2, completionTokens := 3, totalTokens := 1 }) 1 := by
  constructor
  · rw [estimateCost_spec.1]
    norm_num
  · exact estimateCost_spec.2.2.2 1 2 1 3 1 1 0 1 (by norm_num) (by norm_num) (by norm_num)

/-- Claim C10: with the usage argument absent, `estimateCost` returns 0 for
every source count — the per-source search cost is silently dropped, so the
cost no longer grows with the source count there, although a present
all-zero usage with the same source count is charged for the sources. -/
theorem estimateCost_missing_usage :
    (∀ s : Nat, GrokClient.estimateCost none s = 0)
    ∧ GrokClient.estimateCost none 1 ≤ GrokClient.estimateCost none 0
    ∧ GrokClient.estimateCost none 40
        < GrokClient.estimateCost (some { promptTokens := 0, completionTokens := 0, totalTokens := 0 }) 40 := by
  refine ⟨fun s => rfl, le_refl _, ?_⟩
  norm_num [GrokClient.estimateCost]

/-- Witness for C10 at a concrete positive source count. -/
theorem estimateCost_missing_usage_witness :
    GrokClient.estimateCost none 7 = 0 :=
  estimateCost_missing_usage.1 7

/-- Claim C6: `selectModel` returns the reasoning model id exactly when the
lower-cased combined topic-and-context text contains one of the fixed
keywords or is longer than 100 characters, returns the default fast model
id otherwise, and a topic containing "policy" always yields the reasoning
model. As a Lean function it is pure: equal inputs give equal outputs by
construction. -/
theorem selectModel_spec (topic : Str) (context : Option Str) :
    (GrokClient.selectModel topic context = "grok-4-fast-reasoning" ↔
      (∃ keyword ∈ GrokClient.reasoningKeywords,
          keyword <:+: GrokClient.combinedTextOf topic context)
        ∨ 100 < (GrokClient.combinedTextOf topic context).length)
    ∧ (GrokClient.selectModel topic context = "grok-4-fast-reasoning"
        ∨ GrokClient.selectModel topic context = "grok-4-fast")
    ∧ ("policy".toList <:+: topic →
        GrokClient.selectModel topic context = "grok-4-fast-reasoning") := by
  have hif : ∀ res : Bool,
      (if res then ("grok-4-fast-reasoning" : String) else ("grok-4-fast"))
          = "grok-4-fast-reasoning" ↔ res = true := by
    intro res
    cases res <;> simp
  have hiff : GrokClient.selectModel topic context = "grok-4-fast-reasoning" ↔
      (∃ keyword ∈ GrokClient.reasoningKeywords,
          keyword <:+: GrokClient.combinedTextOf topic context)
        ∨ 100 < (GrokClient.combinedTextOf topic context).length := by
    simp only [GrokClient.selectModel]
    rw [hif]
    simp [List.any_eq_true, decide_eq_true_iff, Bool.or_eq_true, gt_iff_lt]
  refine ⟨hiff, ?_, ?_⟩
  · simp only [GrokClient.selectModel]
    split
    · exact Or.inl rfl
    · exact Or.inr rfl
  · intro h
    have hmem : "policy".toList ∈ GrokClient.reasoningKeywords := by decide
    have h1 : "policy".toList <:+: topic ++ ([' '] ++ context.getD []) :=
      h.trans (List.prefix_append topic _).isInfix
    have h2 := h1.map Char.toLower
    have h3 : ("policy".toList).map Char.toLower = "policy".toList := by decide
    rw [h3] at h2
    have hinf : "policy".toList <:+: GrokClient.combinedTextOf topic context := by
      unfold GrokClient.combinedTextOf lowerStr
      rw [List.append_assoc]
      exact h2
    exact hiff.mpr (Or.inl ⟨"policy".toList, hmem, hinf⟩)

/-- Witness for C6 at concrete inputs: a short topic containing "policy"
selects the reasoning model, and a short keyword-free topic selects the
fast model. -/
theorem selectModel_spec_witness :
    GrokClient.selectModel ("Gun policy".toList) none = "grok-4-fast-reasoning"
    ∧ GrokClient.selectModel ("Cats".toList) none = "grok-4-fast" := by
  constructor
  · exact (selectModel_spec ("Gun policy".toList) none).2.2 (by decide)
  · rcases (selectModel_spec ("Cats".toList) none).2.1 with h | h
    · exfalso
      have := (selectModel_spec ("Cats".toList) none).1.mp h
      revert this
      decide
    · exact h

/-- Claim C8: `enhanceContent` samples only the first min(600, length)
characters of the content (that sample is all the oracle receives); when
the returned text is non-empty and longer than 50 characters after
trimming, the result is the returned text followed by the original content
from index min(600, length) on, unchanged; in every other case — upstream
failure, or returned text failing the success condition — the result is
the original content unchanged. -/
theorem enhanceContent_spec (content : Str) (oracle : Str → Except GrokError Str) :
    (∀ e, oracle (content.take (min 600 content.length)) = .error e →
        enhanceContent content oracle = content)
    ∧ (∀ s, oracle (content.take (min 600 content.length)) = .ok s →
        s ≠ [] → 50 < (jsTrim s).length →
          enhanceContent content oracle
            = s ++ content.drop (min 600 content.length)
          ∧ content.drop (min 600 content.length) <:+ enhanceContent content oracle)
    ∧ (∀ s, oracle (content.take (min 600 content.length)) = .ok s →
        ¬(s ≠ [] ∧ 50 < (jsTrim s).length) →
          enhanceContent content oracle = content) := by
  refine ⟨?_, ?_, ?_⟩
  · intro e he
    simp only [enhanceContent, he]
  · intro s hs hne hlen
    have hcond : (!s.isEmpty && decide ((jsTrim s).length > 50)) = true := by
      simp [List.isEmpty_iff, hne, hlen]
    constructor
    · simp only [enhanceContent, hs, hcond, if_true]
    · simp only [enhanceContent, hs, hcond, if_true]
      exact List.suffix_append s _
  · intro s hs hnot
    rcases Decidable.em (s = []) with he | hne
    · have hcond : (!s.isEmpty && decide ((jsTrim s).length > 50)) = false := by
        simp [he]
      simp [enhanceContent, hs, hcond]
    · have hlen : ¬ 50 < (jsTrim s).length := fun h => hnot ⟨hne, h⟩
      have hcond : (!s.isEmpty && decide ((jsTrim s).length > 50)) = false := by
        simp [hlen]
      simp [enhanceContent, hs, hcond]

set_option maxRecDepth 8192 in
/-- Witness for C8 at concrete inputs: on 700 characters of content with a
60-character rewrite, the rewrite replaces the 600-character sample and the
remaining 100 characters are appended unchanged; a failing oracle leaves
the content unchanged. -/
theorem enhanceContent_spec_witness :
    enhanceContent spliceScenarioContent spliceScenarioOracle
      = List.replicate 60 'b' ++ List.replicate 100 'a'
    ∧ enhanceContent spliceScenarioContent failingEnhanceOracle = spliceScenarioContent := by
  constructor
  · have h := ((enhanceContent_spec spliceScenarioContent spliceScenarioOracle).2.1
      (List.replicate 60 'b') rfl (by decide) (by decide)).1
    rw [h]
    decide
  · exact (enhanceContent_spec spliceScenarioContent failingEnhanceOracle).1 timeoutError rfl

/-- Helper: the title loop returns the first line that is non-blank after
trimming, trimmed and heading-stripped, and the placeholder otherwise. -/
theorem findTitle_eq (ls : List Str) :
    findTitle ls
      = match ls.find? (fun line => !(jsTrim line).isEmpty) with
        | some line => stripHeading (jsTrim line)
        | none => "Untitled".toList := by
  induction ls with
  | nil => rfl
  | cons line rest ih =>
    by_cases h : (jsTrim line).isEmpty
    · rw [List.find?_cons_of_neg _ (by simp [h])]
      simpa [findTitle, h] using ih
    · rw [List.find?_cons_of_pos _ (by simp [h])]
      simp [findTitle, h]

/-- Claim C9: the extracted title is the first newline-separated line of
the content that is non-blank after trimming, with the leading heading
marker (a single hash and the whitespace after it) stripped; when no
non-blank line exists — in particular for the empty string — the title is
the literal placeholder "Untitled". -/
theorem extractTitle_spec (content : Str) :
    extractTitle content = extractTitleSpec content
    ∧ ((∀ line ∈ content.splitOn '\n', jsTrim line = []) →
        extractTitle content = "Untitled".toList)
    ∧ extractTitle [] = "Untitled".toList := by
  have hmain : extractTitle content = extractTitleSpec content := by
    unfold extractTitle extractTitleSpec
    exact findTitle_eq (content.splitOn '\n')
  refine ⟨hmain, ?_, rfl⟩
  intro hall
  rw [hmain]
  unfold extractTitleSpec
  have hnone : (content.splitOn '\n').find? (fun line => !(jsTrim line).isEmpty) = none := by
    rw [List.find?_eq_none]
    intro line hline
    simp [hall line hline]
  rw [hnone]

/-- Witness for C9 at concrete content: a blank first line is skipped, the
title comes from the trimmed second line with its heading marker stripped,
and all-blank content falls back to the placeholder. -/
theorem extractTitle_spec_witness :
    extractTitle ("  \n# Budget Report\nBody text".toList) = "Budget Report".toList
    ∧ extractTitle (" \n\t\n".toList) = "Untitled".toList := by
  constructor
  · rw [(extractTitle_spec ("  \n# Budget Report\nBody text".toList)).1]
    decide
  · exact (extractTitle_spec (" \n\t\n".toList)).2.1 (by decide)

set_option maxRecDepth 8192 in
/-- Claim C1 evaluation at the failing input: content of 501 characters
(over the 500 threshold), bias level 0.5 (over 0.3), and a voice-enhancement
upstream call that fails with a timeout. The orchestrator keeps the
original content byte for byte and never raises — but because
`enhanceContent` swallows its failure and returns normally, the
orchestrator's `catch` never runs and the response reports
`voiceEnhanced = true`, where the spec requires `false`. -/
theorem voiceEnhancement_failure_sets_flag :
    enhanceScenarioResponse.content = enhanceScenarioContent
    ∧ enhanceScenarioResponse.voiceEnhanced = true
    ∧ enhanceScenarioContent.length = 501
    ∧ failingEnhanceOracle
        (enhanceScenarioContent.take (min 600 enhanceScenarioContent.length))
        = .error timeoutError := by
  refine ⟨?_, ?_, ?_, rfl⟩ <;>
    norm_num [enhanceScenarioResponse, generatePersonaResponse, enhanceScenarioGrok,
      enhanceScenarioContent, enhanceContent, failingEnhanceOracle]

/-- Claim C3: `generateDebate` is all-or-nothing. When the persona pair
fails validation the call fails with zero upstream generation requests
issued; any returned result passed validation, carries both requested
persona ids, and contains the two `PersonaResponse`s built from the two
successful primary outcomes — so a result is never returned when either
primary generation failed. -/
theorem generateDebate_all_or_nothing (config : DebateConfig) (env : DebateEnv) :
    (validatePersonaPair config.persona1Id config.persona2Id = false →
        generateDebate config env = (.error .invalidPersonaSelection, 0))
    ∧ (∀ result, (generateDebate config env).1 = .ok result →
        validatePersonaPair config.persona1Id config.persona2Id = true
        ∧ result.personas.persona1.id = config.persona1Id
        ∧ result.personas.persona2.id = config.persona2Id
        ∧ (∃ p1 g1, getPersona config.persona1Id = some p1 ∧ env.primary1 = .ok g1
            ∧ result.personas.persona1.content
              = generatePersonaResponse p1 config.topic config.context
                  (config.useTwitterSearch.getD true)
                  ((config.biasLevels.getD { persona1 := 0.5, persona2 := 0.5 }).persona1)
                  env.nowIso g1 env.enhanceOracle1)
        ∧ (∃ p2 g2, getPersona config.persona2Id = some p2 ∧ env.primary2 = .ok g2
            ∧ result.personas.persona2.content
              = generatePersonaResponse p2 config.topic config.context
                  (config.useTwitterSearch.getD true)
                  ((config.biasLevels.getD { persona1 := 0.5, persona2 := 0.5 }).persona2)
                  env.nowIso g2 env.enhanceOracle2))
    ∧ (∀ e, (env.primary1 = .error e ∨ env.primary2 = .error e) →
        ∀ result, (generateDebate config env).1 ≠ .ok result) := by
  have hmain : ∀ result, (generateDebate config env).1 = .ok result →
      validatePersonaPair config.persona1Id config.persona2Id = true
      ∧ result.personas.persona1.id = config.persona1Id
      ∧ result.personas.persona2.id = config.persona2Id
      ∧ (∃ p1 g1, getPersona config.persona1Id = some p1 ∧ env.primary1 = .ok g1
          ∧ result.personas.persona1.content
            = generatePersonaResponse p1 config.topic config.context
                (config.useTwitterSearch.getD true)
                ((config.biasLevels.getD { persona1 := 0.5, persona2 := 0.5 }).persona1)
                env.nowIso g1 env.enhanceOracle1)
      ∧ (∃ p2 g2, getPersona config.persona2Id = some p2 ∧ env.primary2 = .ok g2
          ∧ result.personas.persona2.content
            = generatePersonaResponse p2 config.topic config.context
                (config.useTwitterSearch.getD true)
                ((config.biasLevels.getD { persona1 := 0.5, persona2 := 0.5 }).persona2)
                env.nowIso g2 env.enhanceOracle2) := by
    intro result hres
    unfold generateDebate at hres
    cases hval : validatePersonaPair config.persona1Id config.persona2Id with
    | false => rw [hval] at hres; simp at hres
    | true =>
      rw [hval] at hres
      simp only [Bool.not_true, Bool.false_eq_true, if_false] at hres
      cases hp1 : getPersona config.persona1Id with
      | none => rw [hp1] at hres; simp at hres
      | some p1 =>
        cases hp2 : getPersona config.persona2Id with
        | none => rw [hp1, hp2] at hres; simp at hres
        | some p2 =>
          rw [hp1, hp2] at hres
          cases he1 : env.primary1 with
          | error e => rw [he1] at hres; simp at hres
          | ok g1 =>
            cases he2 : env.primary2 with
            | error e => rw [he1, he2] at hres; simp at hres
            | ok g2 =>
              rw [he1, he2] at hres
              simp only at hres
              obtain rfl := (Except.ok.inj hres).symm
              exact ⟨rfl, rfl, rfl,
                ⟨p1, g1, rfl, rfl, rfl⟩, ⟨p2, g2, rfl, rfl, rfl⟩⟩
  refine ⟨?_, hmain, ?_⟩
  · intro hval
    simp [generateDebate, hval]
  · intro e he result hok
    obtain ⟨-, -, -, ⟨q1, g1, -, he1, -⟩, ⟨q2, g2, -, he2, -⟩⟩ := hmain result hok
    cases he with
    | inl h => rw [h] at he1; exact Except.noConfusion he1
    | inr h => rw [h] at he2; exact Except.noConfusion he2

/-- Witness for C3 at a concrete same-leaning request: two liberal personas
are rejected at validation, the call fails, and zero upstream requests are
issued even though every upstream outcome in the environment would have
succeeded. -/
theorem generateDebate_all_or_nothing_witness :
    generateDebate sameLeaningConfig sampleEnv = (.error .invalidPersonaSelection, 0) :=
  (generateDebate_all_or_nothing sameLeaningConfig sampleEnv).1 (by decide)
